import Mathlib

/-!
Shallow embedding of the e-commerce service in `src/main.py` (with the schema
declarations of `src/schemas.py`), covering the validation and persistence
mapping layer: request schemas, stored document shapes, the document-to-output
mapping, and the request handlers for products, orders and seeding.

Numbers (prices, ratings, totals) are embedded as rationals; stored document
fields are embedded as a three-way type distinguishing an absent key, an
explicit null value, and a typed value, since the handlers' `dict.get`
fallbacks treat those cases differently.
-/

namespace ECom

/-- A field of a stored document: the key may be absent, present with an
explicit null, or present with a typed value. -/
inductive DField (α : Type) where
  | absent : DField α
  | null : DField α
  | val (a : α) : DField α
deriving DecidableEq, Repr

namespace DField

def isAbsent : DField α → Bool
  | .absent => true
  | _ => false

end DField

/-- Error taxonomy of the service's handlers, as surfaced to the client.
`crash` stands for an unhandled exception escaping a handler (an attribute
error on an absent handle, `float(None)`, or a response-validation failure),
which the framework turns into a generic 500 — distinct from the handlers'
own deliberate error responses. -/
inductive Err where
  | schemaViolation
  | invalidId
  | notFound
  | emptyOrder
  | storeUnconfigured
  | crash (msg : String)
deriving DecidableEq, Repr

/-- A stored product document (`product` collection). `oid` is the
store-generated `_id`, always present, rendered as text. -/
structure ProductDoc where
  oid : String
  title : DField String
  description : DField String
  price : DField ℚ
  category : DField String
  in_stock : DField Bool
  image : DField String
  rating : DField ℚ
deriving DecidableEq, Repr

/-- `ProductOut` (src/main.py 47-55). Both construction sites always supply a
number for `rating`, and `description`/`image` are genuinely nullable. -/
structure ProductOut where
  id : String
  title : String
  description : Option String
  price : ℚ
  category : String
  in_stock : Bool
  image : Option String
  rating : Option ℚ
deriving DecidableEq, Repr

/-- The document-to-output mapping shared verbatim by `list_products`
(src/main.py 99-108) and `get_product` (src/main.py 126-135):
`d.get("title")` and `d.get("description")` read absent keys as None;
`float(d.get("price", 0))` defaults an absent price to 0 but raises on an
explicit null; `d.get("category", "General")` defaults an absent category;
`bool(d.get("in_stock", True))` defaults an absent in_stock to true and reads
an explicit null as false; the rating expression yields 0.0 whenever
`d.get("rating")` is None (absent or null). Constructing `ProductOut` with
None in the required `title`/`category` fields fails validation. -/
def fromDocument (d : ProductDoc) : Except Err ProductOut :=
  match d.title with
  | .val t =>
    match d.price with
    | .null => .error (.crash "float() argument must not be None")
    | dp =>
      match d.category with
      | .null => .error (.crash "validation error: category must be a string")
      | dc =>
        .ok
          { id := d.oid
            title := t
            description := match d.description with | .val s => some s | _ => none
            price := match dp with | .val x => x | _ => 0
            category := match dc with | .val s => s | _ => "General"
            in_stock := match d.in_stock with | .absent => true | .null => false | .val b => b
            image := match d.image with | .val s => some s | _ => none
            rating := some (match d.rating with | .val x => x | _ => 0) }
  | _ => .error (.crash "validation error: title must be a string")

/-- `ObjectId.is_valid` on a string: exactly 24 hexadecimal characters. -/
def isHexChar (c : Char) : Bool :=
  c.isDigit || ('a' ≤ c && c ≤ 'f') || ('A' ≤ c && c ≤ 'F')

def isValidObjectId (s : String) : Bool :=
  s.length == 24 && s.data.all isHexChar

/-- `ObjectId(s)` normalizes the hexadecimal text; stored ids render in
canonical lower case, so the lookup compares case-insensitively. -/
def parseObjectId (s : String) : String := s.toLower

/-- `db.product.find_one({"_id": ObjectId(pid)})`. -/
def findOneProduct (s : List ProductDoc) (pid : String) : Option ProductDoc :=
  s.find? (fun d => d.oid == parseObjectId pid)

/-- `get_product` (src/main.py 119-135). The id-format check comes first; the
handler performs no `db is None` guard, so an absent handle crashes with an
attribute error once a store lookup is attempted. The second component
records whether the store was accessed. -/
def get_product (db : Option (List ProductDoc)) (pid : String) :
    Except Err ProductOut × Bool :=
  if isValidObjectId pid then
    match db with
    | none => (.error (.crash "NoneType object has no attribute product"), false)
    | some s =>
      match findOneProduct s pid with
      | none => (.error .notFound, true)
      | some d => (fromDocument d, true)
  else (.error .invalidId, false)

/-- One step of matching a pattern against a prefix of the text:
each pattern character must match the corresponding text character, where an
unescaped dot matches any character and every other character matches
case-insensitively (the `i` option). -/
def regexMatchHere : List Char → List Char → Bool
  | [], _ => true
  | _ :: _, [] => false
  | p :: ps, c :: cs => (p == '.' || p.toLower == c.toLower) && regexMatchHere ps cs

/-- MongoDB `{"$regex": pat, "$options": "i"}` applied to a string field, as
used by `list_products` (src/main.py 92): an unanchored, case-insensitive
regular-expression search. Modelled on the fragment of patterns whose only
metacharacter is the dot wildcard; further PCRE syntax is outside this model
(patterns made of ordinary characters behave as substring search). -/
def regexMatchCI (pat text : String) : Bool :=
  text.data.tails.any (fun t => regexMatchHere pat.data t)

/-- The spec's words for the free-text query (§4.4 List Products):
"case-insensitive substring match against title". Stated from the spec, to be
compared against the source-side `$regex` filter. -/
def specContainsCI (hay needle : String) : Bool :=
  hay.toLower.data.tails.any (fun t => List.isPrefixOf needle.toLower.data t)

/-- `{"title": {"$regex": qs, "$options": "i"}}`: only documents whose title
is present with a string value can match. -/
def titleFilterMatches (qs : String) (d : ProductDoc) : Bool :=
  match d.title with
  | .val t => regexMatchCI qs t
  | _ => false

/-- `{"category": cs}` with a string value: equality against a present string
field. -/
def categoryFilterMatches (cs : String) (d : ProductDoc) : Bool :=
  match d.category with
  | .val c => c == cs
  | _ => false

/-- The find filter built by `list_products` (src/main.py 90-94): `if q:` and
`if category:` skip a missing or empty parameter (falsy in Python); the
remaining clauses apply as a conjunction. -/
def listFilterPred (q category : Option String) (d : ProductDoc) : Bool :=
  (match q with
   | some qs => if qs = "" then true else titleFilterMatches qs d
   | none => true)
  &&
  (match category with
   | some cs => if cs = "" then true else categoryFilterMatches cs d
   | none => true)

/-- `cursor.limit(n)`: a limit of 0 means no limit; a negative limit behaves
as its absolute value. -/
def mongoLimit (n : Int) (xs : List α) : List α :=
  if n = 0 then xs else xs.take n.natAbs

/-- `list_products` (src/main.py 85-109): guards the absent handle, filters,
limits (default 50), then maps every returned document through the shared
document-to-output mapping; a mapping failure escapes the handler. -/
def list_products (db : Option (List ProductDoc)) (q category : Option String)
    (limit : Int := 50) : Except Err (List ProductOut) :=
  match db with
  | none => .error .storeUnconfigured
  | some s => (mongoLimit limit (s.filter (listFilterPred q category))).mapM fromDocument

/-- Raw body of a Create Product request. `none` stands for an omitted field
(for `description` and `image` an explicit null parses identically); `rating`
is declared `Optional`, so it distinguishes omitted (`none`, taking the
default) from an explicit null (`some none`). -/
structure RawCreateProduct where
  title : Option String
  description : Option String
  price : Option ℚ
  category : Option String
  in_stock : Option Bool
  image : Option String
  rating : Option (Option ℚ)
deriving DecidableEq, Repr

/-- `CreateProduct` (src/main.py 37-44) after validation. -/
structure CreateProduct where
  title : String
  description : Option String
  price : ℚ
  category : String
  in_stock : Bool
  image : Option String
  rating : Option ℚ
deriving DecidableEq, Repr

/-- Pydantic validation of `CreateProduct` (src/main.py 37-44): title, price
and category are required; price carries `ge=0`; in_stock defaults to true;
rating defaults to 0.0 and, being Optional, also accepts an explicit null.
The model declares no range constraint on rating. -/
def parseCreateProduct (r : RawCreateProduct) : Except Err CreateProduct :=
  match r.title, r.price, r.category with
  | some t, some pz, some c =>
    if 0 ≤ pz then
      .ok { title := t
            description := r.description
            price := pz
            category := c
            in_stock := r.in_stock.getD true
            image := r.image
            rating := match r.rating with | none => some 0 | some ro => ro }
    else .error .schemaViolation
  | _, _, _ => .error .schemaViolation

/-- The constraint `schemas.py` declares on `Product.rating`
(src/schemas.py 19: `ge=0, le=5`, checked when the value is not null). The
endpoint's own `CreateProduct` model does not carry it. -/
def schemasRatingOk (r : Option ℚ) : Bool :=
  match r with
  | none => true
  | some x => decide (0 ≤ x) && decide (x ≤ 5)

/-- The id the gateway assigns to the document inserted into a collection
currently holding `n` documents. -/
def genOid (n : Nat) : String := "oid" ++ toString n

/-- `payload.model_dump()` written as a document: every declared field
becomes a key, and None values are stored as explicit nulls. -/
def productToDoc (oid : String) (p : CreateProduct) : ProductDoc :=
  { oid := oid
    title := .val p.title
    description := match p.description with | some s => .val s | none => .null
    price := .val p.price
    category := .val p.category
    in_stock := .val p.in_stock
    image := match p.image with | some s => .val s | none => .null
    rating := match p.rating with | some x => .val x | none => .null }

/-- Modelled from the spec: `create_document` of `database.py` (the
persistence gateway's insert-one, not under src/) for the product
collection. Per §6 it inserts the document into the named collection and
returns a generated id; with the gateway unconfigured the subscript on the
absent handle fails rather than producing the StoreUnconfigured response. -/
def create_document_product (db : Option (List ProductDoc)) (p : CreateProduct) :
    Except Err (String × List ProductDoc) :=
  match db with
  | none => .error (.crash "NoneType object is not subscriptable")
  | some s =>
    let oid := genOid s.length
    .ok (oid, s ++ [productToDoc oid p])

/-- `create_product` (src/main.py 112-116): validation, then straight into
the gateway call — the handler performs no `db is None` guard. Returns the
new id and the resulting handle (unchanged when the request fails). -/
def create_product (db : Option (List ProductDoc)) (r : RawCreateProduct) :
    Except Err String × Option (List ProductDoc) :=
  match parseCreateProduct r with
  | .error e => (.error e, db)
  | .ok p =>
    match create_document_product db p with
    | .error e => (.error e, db)
    | .ok (oid, s) => (.ok oid, some s)

/-- A UTC instant broken into calendar components, as `datetime.utcnow()`
exposes it. -/
structure Ts where
  year : Nat
  month : Nat
  day : Nat
  hour : Nat
  minute : Nat
  second : Nat
deriving DecidableEq, Repr

/-- Zero-pad a number to a field width, as `strftime` does. -/
def padNum (w n : Nat) : String :=
  let s := toString n
  String.mk (List.replicate (w - s.length) '0') ++ s

/-- `datetime.utcnow().strftime('%Y%m%d%H%M%S')` (src/main.py 144). -/
def tsFormat (t : Ts) : String :=
  padNum 4 t.year ++ padNum 2 t.month ++ padNum 2 t.day ++
    padNum 2 t.hour ++ padNum 2 t.minute ++ padNum 2 t.second

/-- Chronological key of an instant: lexicographic in the calendar
components, matching how the store orders its date values. -/
def tsKey (t : Ts) : Nat :=
  ((((t.year * 100 + t.month) * 100 + t.day) * 100 + t.hour) * 100 + t.minute)
    * 100 + t.second

/-- `OrderItem` (src/main.py 59-63) after validation. -/
structure OrderItem where
  product_id : String
  title : String
  quantity : Int
  price : ℚ
deriving DecidableEq, Repr

/-- Raw order item from the request body; `none` stands for a missing field. -/
structure RawOrderItem where
  product_id : Option String
  title : Option String
  quantity : Option Int
  price : Option ℚ
deriving DecidableEq, Repr

/-- `CreateOrder` (src/main.py 65-69) after validation. The model declares no
derived fields, so any client-supplied values for them are dropped during
parsing. -/
structure CreateOrder where
  customer_name : String
  customer_email : String
  shipping_address : String
  items : List OrderItem
deriving DecidableEq, Repr

/-- Raw body of a Create Order request. Pydantic ignores fields the model
does not declare, so the client-suppliable derived fields are carried here
to show that parsing drops them. -/
structure RawCreateOrder where
  customer_name : Option String
  customer_email : Option String
  shipping_address : Option String
  items : Option (List RawOrderItem)
  total_amount : Option ℚ
  order_number : Option String
  status : Option String
  created_at : Option Ts
deriving DecidableEq, Repr

/-- Validation of one order item: all four fields required, `quantity ge=1`,
`price ge=0`. -/
def parseOrderItem (r : RawOrderItem) : Except Err OrderItem :=
  match r.product_id, r.title, r.quantity, r.price with
  | some pid, some t, some qn, some pz =>
    if 1 ≤ qn ∧ 0 ≤ pz then .ok ⟨pid, t, qn, pz⟩ else .error .schemaViolation
  | _, _, _, _ => .error .schemaViolation

/-- Pydantic validation of `CreateOrder`: the framework validates the body
against the model and rejects with an aggregated 422 before the handler
runs; undeclared fields are dropped. -/
def parseCreateOrder (r : RawCreateOrder) : Except Err CreateOrder :=
  match r.customer_name, r.customer_email, r.shipping_address, r.items with
  | some cn, some ce, some sa, some its =>
    match its.mapM parseOrderItem with
    | .ok items => .ok ⟨cn, ce, sa, items⟩
    | .error e => .error e
  | _, _, _, _ => .error .schemaViolation

/-- A stored order document (`order` collection). -/
structure OrderDoc where
  oid : String
  customer_name : String
  customer_email : String
  shipping_address : String
  items : List OrderItem
  total_amount : ℚ
  order_number : String
  status : String
  created_at : Ts
deriving DecidableEq, Repr

/-- The mapping the handler itself builds for insertion
(src/main.py 146-154): input fields plus the three derived fields it
computes; the creation timestamp is not among them. -/
structure OrderDocData where
  customer_name : String
  customer_email : String
  shipping_address : String
  items : List OrderItem
  total_amount : ℚ
  order_number : String
  status : String
deriving DecidableEq, Repr

/-- `OrderOut` (src/main.py 71-77). -/
structure OrderOut where
  id : String
  order_number : String
  total_amount : ℚ
  items : List OrderItem
  status : String
  created_at : Ts
deriving DecidableEq, Repr

/-- Summary shape returned by `list_orders` (src/main.py 175-181). -/
structure OrderSummary where
  id : String
  order_number : String
  total_amount : ℚ
  status : String
  created_at : Ts
deriving DecidableEq, Repr

/-- `sum([it.price * it.quantity for it in payload.items])`
(src/main.py 143). -/
def orderTotal (items : List OrderItem) : ℚ :=
  (items.map (fun it => it.price * (it.quantity : ℚ))).sum

/-- Modelled from the spec: `create_document` of `database.py` (the
persistence gateway's insert-one, not under src/) for the order collection.
Per §3 and §4.3 the stored Order carries a creation timestamp set at
creation, which the gateway stamps on the inserted document along with the
generated id; with the gateway unconfigured the subscript on the absent
handle fails rather than producing the StoreUnconfigured response. -/
def create_document_order (db : Option (List OrderDoc)) (now : Ts)
    (d : OrderDocData) : Except Err (String × List OrderDoc) :=
  match db with
  | none => .error (.crash "NoneType object is not subscriptable")
  | some s =>
    let oid := genOid s.length
    .ok (oid,
      s ++ [{ oid := oid
              customer_name := d.customer_name
              customer_email := d.customer_email
              shipping_address := d.shipping_address
              items := d.items
              total_amount := d.total_amount
              order_number := d.order_number
              status := d.status
              created_at := now }])

/-- `create_order` (src/main.py 138-165): validation (by the framework),
the empty-items guard, server-side computation of the derived fields, the
gateway call (no `db is None` guard), and the response. The handler reads
the clock for the order number and again for the response's `created_at`;
both reads are modelled by the single instant `now`. The second component is
the resulting handle, unchanged when the request fails. -/
def create_order (db : Option (List OrderDoc)) (now : Ts) (r : RawCreateOrder) :
    Except Err OrderOut × Option (List OrderDoc) :=
  match parseCreateOrder r with
  | .error e => (.error e, db)
  | .ok p =>
    if p.items.length = 0 then (.error .emptyOrder, db)
    else
      let total := orderTotal p.items
      let onum := "ORD-" ++ tsFormat now
      let docData : OrderDocData :=
        { customer_name := p.customer_name
          customer_email := p.customer_email
          shipping_address := p.shipping_address
          items := p.items
          total_amount := total
          order_number := onum
          status := "pending" }
      match create_document_order db now docData with
      | .error e => (.error e, db)
      | .ok (oid, s) =>
        (.ok { id := oid
               order_number := onum
               total_amount := total
               items := p.items
               status := "pending"
               created_at := now }, some s)

/-- `sort("created_at", -1)`: newest first. -/
def orderDocGE (a b : OrderDoc) : Prop := tsKey b.created_at ≤ tsKey a.created_at

instance : DecidableRel orderDocGE :=
  fun a b => inferInstanceAs (Decidable (tsKey b.created_at ≤ tsKey a.created_at))

/-- `list_orders` (src/main.py 168-182): guards the absent handle, sorts the
order collection newest-first by `created_at`, limits (default 20), and maps
each document to its summary. -/
def list_orders (db : Option (List OrderDoc)) (limit : Int := 20) :
    Except Err (List OrderSummary) :=
  match db with
  | none => .error .storeUnconfigured
  | some s =>
    .ok ((mongoLimit limit (s.insertionSort orderDocGE)).map (fun d =>
      { id := d.oid
        order_number := d.order_number
        total_amount := d.total_amount
        status := d.status
        created_at := d.created_at }))

/-- `{"title": t}` equality query against a product document. -/
def productTitleIs (t : String) (d : ProductDoc) : Bool :=
  match d.title with
  | .val s => s == t
  | _ => false

/-- `db.product.find_one({"title": t})` (src/main.py 232). -/
def findByTitle (s : List ProductDoc) (t : String) : Option ProductDoc :=
  s.find? (productTitleIs t)

/-- The fixed built-in sample set of `seed_products` (src/main.py 191-228);
every entry carries all seven fields with non-null values. -/
def sampleProducts : List CreateProduct :=
  [ { title := "Wireless Headphones"
      description := some "Noise-cancelling over-ear headphones with 30h battery."
      price := (9999 : ℚ) / 100
      category := "Electronics"
      in_stock := true
      image := some "https://images.unsplash.com/photo-1518443881150-2f81e7a0f34b?w=800&q=80"
      rating := some ((45 : ℚ) / 10) }
  , { title := "Smart Watch"
      description := some "Fitness tracking, heart rate monitor, and notifications."
      price := (14999 : ℚ) / 100
      category := "Wearables"
      in_stock := true
      image := some "https://images.unsplash.com/photo-1511732351157-1865efcb7b7b?w=800&q=80"
      rating := some ((42 : ℚ) / 10) }
  , { title := "Running Shoes"
      description := some "Lightweight and comfortable shoes for daily runs."
      price := (7999 : ℚ) / 100
      category := "Footwear"
      in_stock := true
      image := some "https://images.unsplash.com/photo-1525966222134-fcfa99b8ae77?w=800&q=80"
      rating := some ((46 : ℚ) / 10) }
  , { title := "Backpack"
      description := some "Durable backpack with laptop compartment."
      price := (5999 : ℚ) / 100
      category := "Accessories"
      in_stock := true
      image := some "https://images.unsplash.com/photo-1514477917009-389c76a86b68?w=800&q=80"
      rating := some ((41 : ℚ) / 10) }
  ]

/-- The loop of `seed_products` (src/main.py 230-235): for each sample entry,
insert only when no stored product already bears its title, counting the
inserts. -/
def seedLoop (ps : List CreateProduct) (s : List ProductDoc) :
    Nat × List ProductDoc :=
  match ps with
  | [] => (0, s)
  | p :: rest =>
    match findByTitle s p.title with
    | some _ => seedLoop rest s
    | none =>
      let s1 := s ++ [productToDoc (genOid s.length) p]
      let r := seedLoop rest s1
      (r.1 + 1, r.2)

/-- `seed_products` (src/main.py 185-237): guards the absent handle, then
runs the insert-if-title-absent loop over the built-in sample set and
reports the number inserted. -/
def seed_products (db : Option (List ProductDoc)) :
    Except Err (Nat × List ProductDoc) :=
  match db with
  | none => .error .storeUnconfigured
  | some s => .ok (seedLoop sampleProducts s)

/-! ### Helper lemmas -/

lemma parseCreateOrder_drops_derived (r : RawCreateOrder) (t : Option ℚ)
    (onum st : Option String) (ca : Option Ts) :
    parseCreateOrder
      { r with total_amount := t, order_number := onum, status := st, created_at := ca } =
    parseCreateOrder r := rfl

lemma create_order_drops_derived (db : Option (List OrderDoc)) (now : Ts)
    (r : RawCreateOrder) (t : Option ℚ) (onum st : Option String) (ca : Option Ts) :
    create_order db now
      { r with total_amount := t, order_number := onum, status := st, created_at := ca } =
    create_order db now r := rfl

lemma create_order_ok_eq (s : List OrderDoc) (now : Ts) (r : RawCreateOrder)
    (p : CreateOrder) (hp : parseCreateOrder r = .ok p) (hne : p.items.length ≠ 0) :
    create_order (some s) now r =
      (.ok { id := genOid s.length
             order_number := "ORD-" ++ tsFormat now
             total_amount := orderTotal p.items
             items := p.items
             status := "pending"
             created_at := now },
       some (s ++ [{ oid := genOid s.length
                     customer_name := p.customer_name
                     customer_email := p.customer_email
                     shipping_address := p.shipping_address
                     items := p.items
                     total_amount := orderTotal p.items
                     order_number := "ORD-" ++ tsFormat now
                     status := "pending"
                     created_at := now }])) := by
  unfold create_order
  rw [hp]
  simp [hne, create_document_order]

lemma create_order_none_eq (now : Ts) (r : RawCreateOrder)
    (p : CreateOrder) (hp : parseCreateOrder r = .ok p) (hne : p.items.length ≠ 0) :
    create_order none now r =
      (.error (.crash "NoneType object is not subscriptable"), none) := by
  unfold create_order
  rw [hp]
  simp [hne, create_document_order]

/-! ### C1 -/

/-- C1: for every Create Order request with a non-empty items list, the
total_amount in the response and in the inserted document equals the sum
over all items of price × quantity, computed server-side, and a
client-supplied total_amount value has no effect on the result. -/
theorem c1_total_amount_server_side (db : Option (List OrderDoc)) (now : Ts)
    (r : RawCreateOrder) (p : CreateOrder)
    (hp : parseCreateOrder r = .ok p) (hne : p.items ≠ [])
    (out : OrderOut) (s1 : List OrderDoc)
    (hok : create_order db now r = (.ok out, some s1)) :
    out.total_amount = orderTotal p.items ∧
    (∃ s doc, db = some s ∧ s1 = s ++ [doc] ∧
      doc.total_amount = orderTotal p.items) ∧
    (∀ t, create_order db now { r with total_amount := t } = create_order db now r) := by
  have hlen : p.items.length ≠ 0 := by
    simpa [List.length_eq_zero] using hne
  cases db with
  | none =>
    rw [create_order_none_eq now r p hp hlen] at hok
    exact absurd (congrArg Prod.snd hok) (by simp)
  | some s =>
    rw [create_order_ok_eq s now r p hp hlen] at hok
    obtain ⟨h1, h2⟩ := Prod.mk.injEq .. ▸ hok
    have hout := Except.ok.injEq .. ▸ h1
    have hs1 := Option.some.injEq .. ▸ h2
    refine ⟨?_, ⟨s, _, rfl, hs1.symm, rfl⟩, fun t => rfl⟩
    rw [← hout]

def c1raw : RawCreateOrder :=
  { customer_name := some "A"
    customer_email := some "a@b.com"
    shipping_address := some "X"
    items := some [{ product_id := some "p1", title := some "Mug",
                     quantity := some 2, price := some ((999 : ℚ) / 100) }]
    total_amount := some 123
    order_number := none
    status := none
    created_at := none }

def c1p : CreateOrder :=
  { customer_name := "A"
    customer_email := "a@b.com"
    shipping_address := "X"
    items := [{ product_id := "p1", title := "Mug", quantity := 2, price := (999 : ℚ) / 100 }] }

def c1ts : Ts := ⟨2026, 3, 4, 5, 6, 7⟩

def c1out : OrderOut :=
  { id := "oid0"
    order_number := "ORD-20260304050607"
    total_amount := (999 : ℚ) / 50
    items := c1p.items
    status := "pending"
    created_at := c1ts }

def c1doc : OrderDoc :=
  { oid := "oid0"
    customer_name := "A"
    customer_email := "a@b.com"
    shipping_address := "X"
    items := c1p.items
    total_amount := (999 : ℚ) / 50
    order_number := "ORD-20260304050607"
    status := "pending"
    created_at := c1ts }

/-- Witness for C1 at a concrete one-item order (2 × 9.99, client-sent
total_amount 123 ignored). -/
theorem c1_witness :
    c1out.total_amount = orderTotal c1p.items ∧
    (∃ s doc, (some [] : Option (List OrderDoc)) = some s ∧ [c1doc] = s ++ [doc] ∧
      doc.total_amount = orderTotal c1p.items) ∧
    (∀ t, create_order (some []) c1ts { c1raw with total_amount := t } =
      create_order (some []) c1ts c1raw) :=
  c1_total_amount_server_side (some []) c1ts c1raw c1p (by with_unfolding_all rfl)
    (by with_unfolding_all decide) c1out [c1doc] (by with_unfolding_all rfl)

/-! ### C2 -/

def c2raw : RawCreateOrder :=
  { customer_name := none
    customer_email := some "a@b.com"
    shipping_address := some "X"
    items := some []
    total_amount := none
    order_number := none
    status := none
    created_at := none }

def c2ts : Ts := ⟨2026, 1, 2, 3, 4, 5⟩

/-- C2 counterexample: a Create Order request with an empty items list whose
customer_name is missing fails schema validation (the framework validates
the body before the handler runs), so the failure is SchemaViolation, not
EmptyOrder — the claim's "regardless of whether the other fields satisfy
their schema constraints" does not hold. -/
theorem c2_counterexample :
    create_order (some []) c2ts c2raw = (.error .schemaViolation, some []) ∧
    Err.schemaViolation ≠ Err.emptyOrder := by
  exact ⟨rfl, by decide⟩

/-- C2 amended: for every Create Order request that passes schema validation
and has an empty items list, the operation fails with EmptyOrder and no
document is inserted; when other fields violate their schema constraints the
failure is SchemaViolation instead, since body validation precedes the
handler. -/
theorem c2_empty_order (db : Option (List OrderDoc)) (now : Ts)
    (r : RawCreateOrder) (p : CreateOrder)
    (hp : parseCreateOrder r = .ok p) (hempty : p.items = []) :
    create_order db now r = (.error .emptyOrder, db) := by
  unfold create_order
  rw [hp]
  simp [hempty]

def c2wraw : RawCreateOrder :=
  { customer_name := some "A"
    customer_email := some "a@b.com"
    shipping_address := some "X"
    items := some []
    total_amount := none
    order_number := none
    status := none
    created_at := none }

def c2wp : CreateOrder :=
  { customer_name := "A", customer_email := "a@b.com", shipping_address := "X", items := [] }

/-- Witness for the amended C2 at a concrete schema-valid empty order. -/
theorem c2_empty_order_witness :
    create_order (some []) c2ts c2wraw = (.error .emptyOrder, some []) :=
  c2_empty_order (some []) c2ts c2wraw c2wp (by with_unfolding_all rfl) rfl

/-! ### C4 -/

def c4raw : RawCreateProduct :=
  { title := some "X"
    description := none
    price := some 1
    category := some "C"
    in_stock := none
    image := none
    rating := some (some ((15 : ℚ) / 2)) }

def c4p : CreateProduct :=
  { title := "X"
    description := none
    price := 1
    category := "C"
    in_stock := true
    image := none
    rating := some ((15 : ℚ) / 2) }

/-- C4: a Create Product request with rating 7.5 ∉ [0,5] passes the
endpoint's validation (main.py's CreateProduct declares no bound on rating,
unlike the repo's own schemas.py Product, whose constraint the value
violates) and the document is persisted with rating 7.5 — the claimed 422
never happens and the stored-rating invariant is broken. -/
theorem c4_rating_bound_not_enforced :
    parseCreateProduct c4raw = .ok c4p ∧
    schemasRatingOk c4p.rating = false ∧
    create_product (some []) c4raw = (.ok "oid0", some [productToDoc "oid0" c4p]) ∧
    (productToDoc "oid0" c4p).rating = .val ((15 : ℚ) / 2) := by
  refine ⟨by with_unfolding_all rfl, by with_unfolding_all rfl, by with_unfolding_all rfl,
    by with_unfolding_all rfl⟩

/-! ### C3 -/

/-- Behaviour of the shared document-to-output mapping on any document whose
title is present and whose category and price are not explicit nulls: it
succeeds, with the read-side defaults substituted for absent fields. -/
lemma fromDocument_wf_spec (d : ProductDoc) (t : String) (ht : d.title = DField.val t)
    (hc : d.category ≠ DField.null) (hpz : d.price ≠ DField.null) :
    ∃ o, fromDocument d = .ok o ∧ o.id = d.oid ∧ o.title = t ∧
      (d.category = .absent → o.category = "General") ∧
      (∀ c, d.category = .val c → o.category = c) ∧
      (d.in_stock = .absent → o.in_stock = true) ∧
      (d.rating = .absent → o.rating = some 0) ∧
      (d.price = .absent → o.price = 0) ∧
      (∀ x, d.price = .val x → o.price = x) ∧
      (d.description = .absent → o.description = none) ∧
      (d.image = .absent → o.image = none) := by
  obtain ⟨oid, dt, dd, dp, dc, ds, di, dr⟩ := d
  simp only at ht hc hpz
  subst ht
  cases dp with
  | null => exact absurd rfl hpz
  | absent =>
    cases dc with
    | null => exact absurd rfl hc
    | absent => exact ⟨_, rfl, by
        simp [fromDocument]
        exact ⟨fun h => by cases h; rfl, fun h => by cases h; rfl,
          fun h => by cases h; rfl, fun h => by cases h; rfl⟩⟩
    | val c => exact ⟨_, rfl, by
        simp [fromDocument]
        exact ⟨fun h => by cases h; rfl, fun h => by cases h; rfl,
          fun h => by cases h; rfl, fun h => by cases h; rfl⟩⟩
  | val x =>
    cases dc with
    | null => exact absurd rfl hc
    | absent => exact ⟨_, rfl, by
        simp [fromDocument]
        exact ⟨fun h => by cases h; rfl, fun h => by cases h; rfl,
          fun h => by cases h; rfl, fun h => by cases h; rfl⟩⟩
    | val c => exact ⟨_, rfl, by
        simp [fromDocument]
        exact ⟨fun h => by cases h; rfl, fun h => by cases h; rfl,
          fun h => by cases h; rfl, fun h => by cases h; rfl⟩⟩

def c3doc : ProductDoc :=
  { oid := "c3"
    title := .absent
    description := .absent
    price := .absent
    category := .absent
    in_stock := .absent
    image := .absent
    rating := .absent }

/-- C3 counterexample: a stored document missing its title makes the
document-to-output mapping fail (None lands in the required `title` field of
ProductOut), so the mapping does not tolerate a document "missing any field
at all". -/
theorem c3_counterexample :
    fromDocument c3doc = .error (.crash "validation error: title must be a string") := rfl

/-- C3 amended: the mapping succeeds with the claimed read-side defaults
(category "General", in_stock true, rating 0.0, price 0) for every document
whose title is present with a string value and whose category and price are
not explicit nulls; a document missing its title (and likewise a null
category or price) fails the mapping instead. -/
theorem c3_mapping_defaults (d : ProductDoc) (t : String) (ht : d.title = DField.val t)
    (hc : d.category ≠ DField.null) (hpz : d.price ≠ DField.null) :
    ∃ o, fromDocument d = .ok o ∧ o.id = d.oid ∧ o.title = t ∧
      (d.category = .absent → o.category = "General") ∧
      (∀ c, d.category = .val c → o.category = c) ∧
      (d.in_stock = .absent → o.in_stock = true) ∧
      (d.rating = .absent → o.rating = some 0) ∧
      (d.price = .absent → o.price = 0) ∧
      (∀ x, d.price = .val x → o.price = x) ∧
      (d.description = .absent → o.description = none) ∧
      (d.image = .absent → o.image = none) :=
  fromDocument_wf_spec d t ht hc hpz

def c3wdoc : ProductDoc :=
  { oid := "w3"
    title := .val "T"
    description := .absent
    price := .absent
    category := .absent
    in_stock := .absent
    image := .absent
    rating := .absent }

/-- Witness for the amended C3 at a concrete document holding only a title. -/
theorem c3_mapping_defaults_witness :
    ∃ o, fromDocument c3wdoc = .ok o ∧ o.id = c3wdoc.oid ∧ o.title = "T" ∧
      (c3wdoc.category = .absent → o.category = "General") ∧
      (∀ c, c3wdoc.category = .val c → o.category = c) ∧
      (c3wdoc.in_stock = .absent → o.in_stock = true) ∧
      (c3wdoc.rating = .absent → o.rating = some 0) ∧
      (c3wdoc.price = .absent → o.price = 0) ∧
      (∀ x, c3wdoc.price = .val x → o.price = x) ∧
      (c3wdoc.description = .absent → o.description = none) ∧
      (c3wdoc.image = .absent → o.image = none) :=
  c3_mapping_defaults c3wdoc "T" rfl (by decide) (by decide)

/-! ### C5 -/

/-- C5 counterexample: with the handle absent, Get Product by Id on a
well-formed id does not fail with StoreUnconfigured — the handler has no
`db is None` guard, so the attribute access on the absent handle escapes as
an unhandled error. -/
theorem c5_counterexample :
    get_product none "0123456789abcdef01234567" =
      (.error (.crash "NoneType object has no attribute product"), false) ∧
    Err.crash "NoneType object has no attribute product" ≠ Err.storeUnconfigured := by
  exact ⟨rfl, by decide⟩

/-- C5 amended: when the handle is absent, List Products, List Orders and
Seed fail fast with StoreUnconfigured; Create Product, Get Product by Id and
Create Order perform no such check — they proceed past validation and fail
with an unhandled error at the store access instead of the StoreUnconfigured
response. -/
theorem c5_unconfigured_endpoints (q c : Option String) (lp lo : Int) (now : Ts)
    (pid : String) (hpid : isValidObjectId pid = true)
    (rp : RawCreateProduct) (p : CreateProduct) (hrp : parseCreateProduct rp = .ok p)
    (ro : RawCreateOrder) (po : CreateOrder) (hro : parseCreateOrder ro = .ok po)
    (hne : po.items ≠ []) :
    list_products none q c lp = .error .storeUnconfigured ∧
    list_orders none lo = .error .storeUnconfigured ∧
    seed_products none = .error .storeUnconfigured ∧
    (get_product none pid).1 = .error (.crash "NoneType object has no attribute product") ∧
    (get_product none pid).1 ≠ .error .storeUnconfigured ∧
    (create_product none rp).1 = .error (.crash "NoneType object is not subscriptable") ∧
    (create_product none rp).1 ≠ .error .storeUnconfigured ∧
    (create_order none now ro).1 = .error (.crash "NoneType object is not subscriptable") ∧
    (create_order none now ro).1 ≠ .error .storeUnconfigured := by
  have hlen : po.items.length ≠ 0 := by
    simpa [List.length_eq_zero] using hne
  have hget : get_product none pid =
      (.error (.crash "NoneType object has no attribute product"), false) := by
    simp [get_product, hpid]
  have hcp : create_product none rp =
      (.error (.crash "NoneType object is not subscriptable"), none) := by
    unfold create_product
    rw [hrp]
    simp [create_document_product]
  have hco := create_order_none_eq now ro po hro hlen
  refine ⟨rfl, rfl, rfl, ?_, ?_, ?_, ?_, ?_, ?_⟩ <;>
    simp [hget, hcp, hco]

def c5pid : String := "0123456789abcdef01234567"

def c5rawp : RawCreateProduct :=
  { title := some "Mug"
    description := none
    price := some 1
    category := some "Home"
    in_stock := none
    image := none
    rating := none }

def c5p : CreateProduct :=
  { title := "Mug"
    description := none
    price := 1
    category := "Home"
    in_stock := true
    image := none
    rating := some 0 }

/-- Witness for the amended C5 at concrete requests. -/
theorem c5_unconfigured_endpoints_witness :
    list_products none none none 50 = .error .storeUnconfigured ∧
    list_orders none 20 = .error .storeUnconfigured ∧
    seed_products none = .error .storeUnconfigured ∧
    (get_product none c5pid).1 = .error (.crash "NoneType object has no attribute product") ∧
    (get_product none c5pid).1 ≠ .error .storeUnconfigured ∧
    (create_product none c5rawp).1 = .error (.crash "NoneType object is not subscriptable") ∧
    (create_product none c5rawp).1 ≠ .error .storeUnconfigured ∧
    (create_order none c2ts c1raw).1 = .error (.crash "NoneType object is not subscriptable") ∧
    (create_order none c2ts c1raw).1 ≠ .error .storeUnconfigured :=
  c5_unconfigured_endpoints none none 50 20 c2ts c5pid (by decide)
    c5rawp c5p (by with_unfolding_all rfl)
    c1raw c1p (by with_unfolding_all rfl) (by with_unfolding_all decide)

/-! ### C6 -/

/-- C6: Get Product by Id fails with InvalidIdFormat for every id that is
not a 24-digit hex string, without touching the store (the access flag stays
false); for a well-formed id with no matching document it fails with
NotFound; and when a document matches, it returns the outcome of the shared
document-to-output mapping on that document. -/
theorem c6_get_product (s : List ProductDoc) (pid : String) :
    (isValidObjectId pid = false →
      get_product (some s) pid = (.error .invalidId, false)) ∧
    (isValidObjectId pid = true → findOneProduct s pid = none →
      get_product (some s) pid = (.error .notFound, true)) ∧
    (∀ d, isValidObjectId pid = true → findOneProduct s pid = some d →
      get_product (some s) pid = (fromDocument d, true)) := by
  refine ⟨fun hv => ?_, fun hv hf => ?_, fun d hv hf => ?_⟩
  · simp [get_product, hv]
  · simp [get_product, hv, hf]
  · simp [get_product, hv, hf]

def c6doc : ProductDoc :=
  { oid := "0123456789abcdef01234567"
    title := .val "Mug"
    description := .null
    price := .val 1
    category := .val "Home"
    in_stock := .val true
    image := .null
    rating := .val 0 }

/-- Witness for C6: all three branches at concrete inputs — a malformed id,
a well-formed id over an empty store, and a well-formed id matching a stored
document. -/
theorem c6_get_product_witness :
    get_product (some []) "zz" = (.error .invalidId, false) ∧
    get_product (some []) "0123456789abcdef01234567" = (.error .notFound, true) ∧
    get_product (some [c6doc]) "0123456789abcdef01234567" = (fromDocument c6doc, true) :=
  ⟨(c6_get_product [] "zz").1 (by decide),
   (c6_get_product [] "0123456789abcdef01234567").2.1 (by decide) (by decide),
   (c6_get_product [c6doc] "0123456789abcdef01234567").2.2 c6doc (by decide)
     (by with_unfolding_all rfl)⟩

/-! ### C10 -/

/-- The read-side fallback defaults of the document-to-output mapping are
exercised exactly when one of the four fields carrying a `dict.get` default
(price, category, in_stock, rating) is absent from the document. -/
def readFallbackUsed (d : ProductDoc) : Bool :=
  d.price.isAbsent || d.category.isAbsent || d.in_stock.isAbsent || d.rating.isAbsent

/-- C10: every document written by Create Product carries all seven schema
fields explicitly — defaults materialized at write time (in_stock true and
rating 0.0 when omitted, description and image stored as null when omitted) —
so reading such a document back succeeds and exercises none of the read-side
fallback defaults. -/
theorem c10_write_materializes_defaults (r : RawCreateProduct) (p : CreateProduct)
    (hp : parseCreateProduct r = .ok p) (oid : String) :
    ((productToDoc oid p).title.isAbsent = false ∧
     (productToDoc oid p).description.isAbsent = false ∧
     (productToDoc oid p).price.isAbsent = false ∧
     (productToDoc oid p).category.isAbsent = false ∧
     (productToDoc oid p).in_stock.isAbsent = false ∧
     (productToDoc oid p).image.isAbsent = false ∧
     (productToDoc oid p).rating.isAbsent = false) ∧
    (r.in_stock = none → (productToDoc oid p).in_stock = .val true) ∧
    (r.rating = none → (productToDoc oid p).rating = .val 0) ∧
    (r.description = none → (productToDoc oid p).description = .null) ∧
    (r.image = none → (productToDoc oid p).image = .null) ∧
    readFallbackUsed (productToDoc oid p) = false ∧
    (∃ o, fromDocument (productToDoc oid p) = .ok o) ∧
    (∀ s, create_product (some s) r =
      (.ok (genOid s.length), some (s ++ [productToDoc (genOid s.length) p]))) := by
  obtain ⟨rt, rd, rpz, rc, ris, rim, rr⟩ := r
  cases rt with
  | none => simp [parseCreateProduct] at hp
  | some t =>
  cases rpz with
  | none => simp [parseCreateProduct] at hp
  | some pz =>
  cases rc with
  | none => simp [parseCreateProduct] at hp
  | some c =>
  unfold parseCreateProduct at hp
  simp only at hp
  split at hp
  case isFalse => cases hp
  case isTrue h0 =>
  injection hp with h
  subst h
  refine ⟨⟨rfl, by cases rd <;> rfl, rfl, rfl, rfl, by cases rim <;> rfl,
      by rcases rr with _ | (_ | x) <;> rfl⟩,
    fun h => by cases h; rfl,
    fun h => by cases h; rfl,
    fun h => by cases h; rfl,
    fun h => by cases h; rfl,
    by rcases rr with _ | (_ | x) <;> rfl,
    ⟨_, rfl⟩,
    fun s => ?_⟩
  unfold create_product
  simp [parseCreateProduct, h0, create_document_product]

def c10raw : RawCreateProduct :=
  { title := some "Mug"
    description := none
    price := some 2
    category := some "Home"
    in_stock := none
    image := none
    rating := none }

def c10p : CreateProduct :=
  { title := "Mug"
    description := none
    price := 2
    category := "Home"
    in_stock := true
    image := none
    rating := some 0 }

/-- Witness for C10 at a concrete request omitting every optional field. -/
theorem c10_witness :
    ((productToDoc "w" c10p).title.isAbsent = false ∧
     (productToDoc "w" c10p).description.isAbsent = false ∧
     (productToDoc "w" c10p).price.isAbsent = false ∧
     (productToDoc "w" c10p).category.isAbsent = false ∧
     (productToDoc "w" c10p).in_stock.isAbsent = false ∧
     (productToDoc "w" c10p).image.isAbsent = false ∧
     (productToDoc "w" c10p).rating.isAbsent = false) ∧
    (c10raw.in_stock = none → (productToDoc "w" c10p).in_stock = .val true) ∧
    (c10raw.rating = none → (productToDoc "w" c10p).rating = .val 0) ∧
    (c10raw.description = none → (productToDoc "w" c10p).description = .null) ∧
    (c10raw.image = none → (productToDoc "w" c10p).image = .null) ∧
    readFallbackUsed (productToDoc "w" c10p) = false ∧
    (∃ o, fromDocument (productToDoc "w" c10p) = .ok o) ∧
    (∀ s, create_product (some s) c10raw =
      (.ok (genOid s.length), some (s ++ [productToDoc (genOid s.length) c10p]))) :=
  c10_write_materializes_defaults c10raw c10p (by with_unfolding_all rfl) "w"

/-! ### C8 -/

lemma seedLoop_length (ps : List CreateProduct) (s : List ProductDoc) :
    (seedLoop ps s).2.length = s.length + (seedLoop ps s).1 := by
  induction ps generalizing s with
  | nil => simp [seedLoop]
  | cons p rest ih =>
    unfold seedLoop
    cases hf : findByTitle s p.title with
    | some d => exact ih s
    | none =>
      have h := ih (s ++ [productToDoc (genOid s.length) p])
      simp only [List.length_append, List.length_cons, List.length_nil] at h
      simp [h]
      omega

lemma seedLoop_extends (ps : List CreateProduct) (s : List ProductDoc) :
    ∃ ext, (seedLoop ps s).2 = s ++ ext := by
  induction ps generalizing s with
  | nil => exact ⟨[], by simp [seedLoop]⟩
  | cons p rest ih =>
    unfold seedLoop
    cases hf : findByTitle s p.title with
    | some d => exact ih s
    | none =>
      obtain ⟨ext, hext⟩ := ih (s ++ [productToDoc (genOid s.length) p])
      exact ⟨productToDoc (genOid s.length) p :: ext, by simp [hext]⟩

lemma findByTitle_append_of_some (s ext : List ProductDoc) (t : String)
    (d : ProductDoc) (h : findByTitle s t = some d) :
    findByTitle (s ++ ext) t = some d := by
  unfold findByTitle at h ⊢
  rw [List.find?_append, h]
  rfl

lemma seedLoop_covers (ps : List CreateProduct) (s : List ProductDoc) :
    ∀ p ∈ ps, ∃ d, findByTitle (seedLoop ps s).2 p.title = some d := by
  induction ps generalizing s with
  | nil => simp
  | cons p rest ih =>
    intro q hq
    unfold seedLoop
    cases hf : findByTitle s p.title with
    | some d =>
      rcases List.mem_cons.mp hq with hq1 | hq2
      · subst hq1
        obtain ⟨ext, hext⟩ := seedLoop_extends rest s
        exact ⟨d, by rw [hext]; exact findByTitle_append_of_some s ext q.title d hf⟩
      · exact ih s q hq2
    | none =>
      rcases List.mem_cons.mp hq with hq1 | hq2
      · subst hq1
        obtain ⟨ext, hext⟩ := seedLoop_extends rest (s ++ [productToDoc (genOid s.length) q])
        refine ⟨productToDoc (genOid s.length) q, ?_⟩
        simp only
        rw [hext]
        have hbase : findByTitle (s ++ [productToDoc (genOid s.length) q]) q.title =
            some (productToDoc (genOid s.length) q) := by
          unfold findByTitle at hf ⊢
          rw [List.find?_append, hf]
          simp [productTitleIs, productToDoc]
        have := findByTitle_append_of_some (s ++ [productToDoc (genOid s.length) q]) ext
          q.title (productToDoc (genOid s.length) q) hbase
        simpa [List.append_assoc] using this
      · exact ih (s ++ [productToDoc (genOid s.length) p]) q hq2

lemma seedLoop_noop (ps : List CreateProduct) (s : List ProductDoc)
    (h : ∀ p ∈ ps, ∃ d, findByTitle s p.title = some d) :
    seedLoop ps s = (0, s) := by
  induction ps with
  | nil => rfl
  | cons p rest ih =>
    obtain ⟨d, hd⟩ := h p (List.mem_cons_self p rest)
    unfold seedLoop
    rw [hd]
    exact ih (fun q hq => h q (List.mem_cons_of_mem p hq))

/-- C8: Seed is idempotent by title — from any store state, the first call
inserts as many products as it reports (only those sample entries whose
title is absent), and an immediately following second call inserts 0 and
leaves the store exactly as the first call left it. -/
theorem c8_seed_idempotent (s : List ProductDoc) :
    ∃ n1 s1, seed_products (some s) = .ok (n1, s1) ∧
      s1.length = s.length + n1 ∧
      seed_products (some s1) = .ok (0, s1) := by
  refine ⟨(seedLoop sampleProducts s).1, (seedLoop sampleProducts s).2, by simp [seed_products],
    seedLoop_length sampleProducts s, ?_⟩
  simp only [seed_products]
  rw [seedLoop_noop sampleProducts (seedLoop sampleProducts s).2
    (fun p hp => seedLoop_covers sampleProducts s p hp)]

/-! ### C7 -/

instance : IsTotal OrderDoc orderDocGE :=
  ⟨fun a b => Nat.le_total (tsKey b.created_at) (tsKey a.created_at)⟩

instance : IsTrans OrderDoc orderDocGE :=
  ⟨fun _ _ _ h1 h2 => Nat.le_trans h2 h1⟩

lemma list_orders_sorted (os : List OrderDoc) (lim : Int) (res : List OrderSummary)
    (h : list_orders (some os) lim = .ok res) :
    res.Pairwise (fun a b => tsKey b.created_at ≤ tsKey a.created_at) := by
  simp only [list_orders, Except.ok.injEq] at h
  subst h
  have hsorted : (os.insertionSort orderDocGE).Pairwise orderDocGE :=
    List.sorted_insertionSort orderDocGE os
  have hlimit : (mongoLimit lim (os.insertionSort orderDocGE)).Pairwise orderDocGE := by
    unfold mongoLimit
    split
    · exact hsorted
    · exact List.Pairwise.sublist (List.take_sublist _ _) hsorted
  exact List.pairwise_map.mpr hlimit

/-- C7: for every valid Create Order request the inserted document carries
the four server-derived fields — the computed total_amount, an order number
"ORD-" followed by the UTC timestamp rendered as YYYYMMDDHHMMSS, status
"pending", and the creation timestamp — with client-supplied values for
these fields dropped by parsing; and List Orders returns its summaries
newest-first by created_at descending. -/
theorem c7_derived_fields_and_ordering (db : Option (List OrderDoc)) (now : Ts)
    (r : RawCreateOrder) (p : CreateOrder)
    (hp : parseCreateOrder r = .ok p) (hne : p.items ≠ [])
    (out : OrderOut) (s1 : List OrderDoc)
    (hok : create_order db now r = (.ok out, some s1)) :
    (∃ s doc, db = some s ∧ s1 = s ++ [doc] ∧
      doc.total_amount = orderTotal p.items ∧
      doc.order_number = "ORD-" ++ tsFormat now ∧
      doc.status = "pending" ∧
      doc.created_at = now) ∧
    (∀ t onum st ca,
      create_order db now
        { r with total_amount := t, order_number := onum, status := st, created_at := ca } =
      create_order db now r) ∧
    (∀ os lim res, list_orders (some os) lim = .ok res →
      res.Pairwise (fun a b => tsKey b.created_at ≤ tsKey a.created_at)) := by
  have hlen : p.items.length ≠ 0 := by
    simpa [List.length_eq_zero] using hne
  refine ⟨?_, fun t onum st ca => create_order_drops_derived db now r t onum st ca,
    fun os lim res h => list_orders_sorted os lim res h⟩
  cases db with
  | none =>
    rw [create_order_none_eq now r p hp hlen] at hok
    exact absurd (congrArg Prod.snd hok) (by simp)
  | some s =>
    rw [create_order_ok_eq s now r p hp hlen] at hok
    have h2 := congrArg Prod.snd hok
    have hs1 := Option.some.injEq .. ▸ h2
    exact ⟨s, _, rfl, hs1.symm, rfl, rfl, rfl, rfl⟩

def c7raw : RawCreateOrder :=
  { customer_name := some "B"
    customer_email := some "b@c.com"
    shipping_address := some "Y"
    items := some [{ product_id := some "p2", title := some "Cup",
                     quantity := some 3, price := some 4 }]
    total_amount := some 1
    order_number := some "ORD-fake"
    status := some "shipped"
    created_at := some ⟨1999, 1, 1, 0, 0, 0⟩ }

def c7p : CreateOrder :=
  { customer_name := "B"
    customer_email := "b@c.com"
    shipping_address := "Y"
    items := [{ product_id := "p2", title := "Cup", quantity := 3, price := 4 }] }

def c7ts : Ts := ⟨2026, 12, 31, 23, 59, 58⟩

def c7out : OrderOut :=
  { id := "oid0"
    order_number := "ORD-20261231235958"
    total_amount := 12
    items := c7p.items
    status := "pending"
    created_at := c7ts }

def c7doc : OrderDoc :=
  { oid := "oid0"
    customer_name := "B"
    customer_email := "b@c.com"
    shipping_address := "Y"
    items := c7p.items
    total_amount := 12
    order_number := "ORD-20261231235958"
    status := "pending"
    created_at := c7ts }

/-- Witness for C7 at a concrete order whose client-supplied derived fields
(total_amount, order_number, status, created_at) are all present and all
ignored. -/
theorem c7_witness :
    (∃ s doc, (some [] : Option (List OrderDoc)) = some s ∧ [c7doc] = s ++ [doc] ∧
      doc.total_amount = orderTotal c7p.items ∧
      doc.order_number = "ORD-" ++ tsFormat c7ts ∧
      doc.status = "pending" ∧
      doc.created_at = c7ts) ∧
    (∀ t onum st ca,
      create_order (some []) c7ts
        { c7raw with total_amount := t, order_number := onum, status := st, created_at := ca } =
      create_order (some []) c7ts c7raw) ∧
    (∀ os lim res, list_orders (some os) lim = .ok res →
      res.Pairwise (fun a b => tsKey b.created_at ≤ tsKey a.created_at)) :=
  c7_derived_fields_and_ordering (some []) c7ts c7raw c7p (by with_unfolding_all rfl)
    (by with_unfolding_all decide) c7out [c7doc] (by with_unfolding_all rfl)

/-! ### C9 -/

/-- Stored product documents on which the read-side mapping is total: the
title is present and neither category nor price is an explicit null. -/
def WellFormedDoc (d : ProductDoc) : Prop :=
  (∃ t, d.title = DField.val t) ∧ d.category ≠ DField.null ∧ d.price ≠ DField.null

lemma listFilterPred_true (q c : Option String) (d : ProductDoc)
    (h : listFilterPred q c d = true) :
    (∀ qs, q = some qs → qs ≠ "" → titleFilterMatches qs d = true) ∧
    (∀ cs, c = some cs → cs ≠ "" → categoryFilterMatches cs d = true) := by
  unfold listFilterPred at h
  rw [Bool.and_eq_true] at h
  obtain ⟨h1, h2⟩ := h
  constructor
  · intro qs hqs hne
    subst hqs
    have h1q : (if qs = "" then true else titleFilterMatches qs d) = true := h1
    rw [if_neg hne] at h1q
    exact h1q
  · intro cs hcs hne
    subst hcs
    have h2c : (if cs = "" then true else categoryFilterMatches cs d) = true := h2
    rw [if_neg hne] at h2c
    exact h2c

lemma mapM_fromDocument_ok (q c : Option String) (l : List ProductDoc)
    (hwf : ∀ d ∈ l, WellFormedDoc d) (hm : ∀ d ∈ l, listFilterPred q c d = true) :
    ∃ outs, l.mapM fromDocument = .ok outs ∧
      outs.map (fun o => o.id) = l.map (fun d => d.oid) ∧
      ∀ o ∈ outs,
        (∀ qs, q = some qs → qs ≠ "" → regexMatchCI qs o.title = true) ∧
        (∀ cs, c = some cs → cs ≠ "" → o.category = cs) := by
  induction l with
  | nil => exact ⟨[], rfl, rfl, by simp⟩
  | cons d rest ih =>
    obtain ⟨⟨t, ht⟩, hcat, hpz⟩ := hwf d (List.mem_cons_self d rest)
    obtain ⟨o, ho, hoid, htitle, _, hcatv, _, _, _, _, _, _⟩ :=
      fromDocument_wf_spec d t ht hcat hpz
    obtain ⟨outs, houts, hids, hprops⟩ :=
      ih (fun x hx => hwf x (List.mem_cons_of_mem d hx))
         (fun x hx => hm x (List.mem_cons_of_mem d hx))
    refine ⟨o :: outs, ?_, ?_, ?_⟩
    · rw [List.mapM_cons, ho, houts]
      rfl
    · simp [hoid, hids]
    · intro o2 ho2
      rcases List.mem_cons.mp ho2 with h1 | h2
      · subst h1
        obtain ⟨hq, hc⟩ := listFilterPred_true q c d (hm d (List.mem_cons_self d rest))
        constructor
        · intro qs hqs hne
          have hmatch := hq qs hqs hne
          unfold titleFilterMatches at hmatch
          rw [ht] at hmatch
          rw [htitle]
          exact hmatch
        · intro cs hcs hne
          have hmatch := hc cs hcs hne
          unfold categoryFilterMatches at hmatch
          cases hdc : d.category with
          | absent => rw [hdc] at hmatch; exact absurd hmatch (by simp)
          | null => exact absurd hdc hcat
          | val c2 =>
            rw [hdc] at hmatch
            have : c2 = cs := by simpa using hmatch
            rw [hcatv c2 hdc, this]
      · exact hprops o2 h2

def c9doc : ProductDoc :=
  { oid := "p1"
    title := .val "abc"
    description := .null
    price := .val 5
    category := .val "Electronics"
    in_stock := .val true
    image := .null
    rating := .val 4 }

def c9out : ProductOut :=
  { id := "p1"
    title := "abc"
    description := none
    price := 5
    category := "Electronics"
    in_stock := true
    image := none
    rating := some 4 }

/-- C9 counterexample: with q = "." the endpoint returns the stored product
titled "abc" — the filter is a regular-expression match, in which the dot is
a wildcard — although "." is not a substring of "abc", so the result is not
"exactly the stored products whose title contains q as a case-insensitive
substring". -/
theorem c9_counterexample :
    list_products (some [c9doc]) (some ".") none 50 = .ok [c9out] ∧
    specContainsCI "abc" "." = false := by
  exact ⟨by with_unfolding_all rfl, by with_unfolding_all rfl⟩

/-- C9 amended: over a store of well-formed documents and a positive limit
(default 50), List Products succeeds and returns exactly the stored products
satisfying the conjunction of its filters, truncated to at most limit
entries — where the free-text filter matches the title against q as a
case-insensitive regular expression (equivalent to substring containment
only for patterns without regex metacharacters), and the category filter is
exact equality. -/
theorem c9_filters (s : List ProductDoc) (q c : Option String) (limit : Int)
    (hl : 0 < limit) (hwf : ∀ d ∈ s, WellFormedDoc d) :
    ∃ outs, list_products (some s) q c limit = .ok outs ∧
      outs.length ≤ limit.toNat ∧
      outs.map (fun o => o.id) =
        ((s.filter (listFilterPred q c)).take limit.toNat).map (fun d => d.oid) ∧
      (∀ o ∈ outs,
        (∀ qs, q = some qs → qs ≠ "" → regexMatchCI qs o.title = true) ∧
        (∀ cs, c = some cs → cs ≠ "" → o.category = cs)) ∧
      ((s.filter (listFilterPred q c)).length ≤ limit.toNat →
        outs.map (fun o => o.id) = (s.filter (listFilterPred q c)).map (fun d => d.oid)) ∧
      (∀ db2 q2 c2, list_products db2 q2 c2 = list_products db2 q2 c2 50) := by
  have hnz : limit ≠ 0 := by omega
  have habs : limit.natAbs = limit.toNat := by omega
  have hml : mongoLimit limit (s.filter (listFilterPred q c)) =
      (s.filter (listFilterPred q c)).take limit.toNat := by
    unfold mongoLimit
    rw [if_neg hnz, habs]
  have hsub : ∀ d ∈ (s.filter (listFilterPred q c)).take limit.toNat, d ∈ s := by
    intro d hd
    exact (List.mem_filter.mp ((List.take_sublist _ _).subset hd)).1
  have hmem : ∀ d ∈ (s.filter (listFilterPred q c)).take limit.toNat,
      listFilterPred q c d = true := by
    intro d hd
    exact (List.mem_filter.mp ((List.take_sublist _ _).subset hd)).2
  obtain ⟨outs, houts, hids, hprops⟩ :=
    mapM_fromDocument_ok q c ((s.filter (listFilterPred q c)).take limit.toNat)
      (fun d hd => hwf d (hsub d hd)) hmem
  refine ⟨outs, ?_, ?_, hids, hprops, ?_, fun db2 q2 c2 => rfl⟩
  · simp only [list_products]
    rw [hml]
    exact houts
  · have hlen := congrArg List.length hids
    simp only [List.length_map] at hlen
    rw [hlen]
    exact List.length_take_le _ _
  · intro hlen
    rw [hids, List.take_of_length_le hlen]

def c9wdoc : ProductDoc :=
  { oid := "w9"
    title := .val "Abacus"
    description := .absent
    price := .val 3
    category := .val "Electronics"
    in_stock := .absent
    image := .absent
    rating := .absent }

/-- Witness for the amended C9 at a concrete one-document store with both
filters given. -/
theorem c9_filters_witness :
    (0 : Int) < 50 ∧
    (∃ outs, list_products (some [c9wdoc]) (some "ab") (some "Electronics") 50 = .ok outs ∧
      outs.length ≤ (50 : Int).toNat ∧
      outs.map (fun o => o.id) =
        (([c9wdoc].filter (listFilterPred (some "ab") (some "Electronics"))).take
          (50 : Int).toNat).map (fun d => d.oid) ∧
      (∀ o ∈ outs,
        (∀ qs, (some "ab" : Option String) = some qs → qs ≠ "" →
          regexMatchCI qs o.title = true) ∧
        (∀ cs, (some "Electronics" : Option String) = some cs → cs ≠ "" →
          o.category = cs)) ∧
      (([c9wdoc].filter (listFilterPred (some "ab") (some "Electronics"))).length ≤
          (50 : Int).toNat →
        outs.map (fun o => o.id) =
          ([c9wdoc].filter (listFilterPred (some "ab") (some "Electronics"))).map
            (fun d => d.oid)) ∧
      (∀ db2 q2 c2, list_products db2 q2 c2 = list_products db2 q2 c2 50)) := by
  have hwf : ∀ d ∈ [c9wdoc], WellFormedDoc d := by
    intro d hd
    rw [List.mem_singleton] at hd
    subst hd
    exact ⟨⟨"Abacus", rfl⟩, by decide, by decide⟩
  exact ⟨by decide, c9_filters [c9wdoc] (some "ab") (some "Electronics") 50 (by decide) hwf⟩

end ECom
